import Mathlib

/-!
Verification development for the order-orchestration engine of a
futures-trading bot.  The Python sources under src/ are shallowly
embedded: quantities and prices become rationals, fallible calls return
`Except`, and exchange responses are supplied through explicit
environment arguments.  Real time stamps, logging and the HTTP transport
are not observable by any claim and are omitted.
-/

namespace TradingBot

/-- Python exception values raised by the embedded code. -/
inductive PyErr
  | validationError
  | orderQuantityTooSmall
  | valueError
  | orderError
  | apiError
  | otherError
  | nameError (missing : String)
  | attributeError (attr : String)
  deriving DecidableEq, Repr

/-- Data of the LOT_SIZE filter taken from the exchange symbol metadata
(`minQty`, `maxQty`, `stepSize` keys in src/src/orders/base.py). -/
structure LotSizeFilter where
  minQty : ℚ
  maxQty : ℚ
  stepSize : ℚ
  deriving DecidableEq, Repr

/-- Embedding of `Order._validate_quantity` (src/src/orders/base.py,
lines 73-128).  `lot = none` covers both a missing symbol info and a
missing LOT_SIZE filter, where the code returns the quantity without
lot checks.  Python float floor division `qty // step_size` is embedded
as the integer floor of the rational quotient. -/
def validateQuantity (qty : ℚ) (lot : Option LotSizeFilter) : Except PyErr ℚ :=
  if qty ≤ 0 then .error .validationError
  else
    match lot with
    | none => .ok qty
    | some f =>
        if qty < f.minQty then .error .orderQuantityTooSmall
        else if f.maxQty < qty then .error .validationError
        else if 0 < f.stepSize then .ok ((⌊qty / f.stepSize⌋ : ℚ) * f.stepSize)
        else .ok qty

/-- Order side, the validated `BUY`/`SELL` strings. -/
inductive Side
  | buy
  | sell
  deriving DecidableEq, Repr

/-- Embedding of `OCOOrder._validate_inputs` (src/src/orders/advanced/oco.py,
lines 47-68), which `OCOOrder.__init__` runs before any placement call.
The side-membership check of the source is subsumed by the `Side` type;
the single three-way price positivity check is split into one test per
price, raising the same error. `symbolValid` is the result of
`client.validate_symbol`. -/
def ocoValidateInputs (side : Side) (quantity limitPrice stopPrice stopLimitPrice : ℚ)
    (symbolValid : Bool) : Except PyErr Unit :=
  if quantity ≤ 0 then .error .valueError
  else if limitPrice ≤ 0 then .error .valueError
  else if stopPrice ≤ 0 then .error .valueError
  else if stopLimitPrice ≤ 0 then .error .valueError
  else if !symbolValid then .error .valueError
  else
    match side with
    | .buy => if stopPrice ≤ limitPrice then .error .valueError else .ok ()
    | .sell => if limitPrice ≤ stopPrice then .error .valueError else .ok ()

/-- Price-ordering violation rejected by `OCOOrder._validate_inputs`: for a
BUY the take-profit limit price is not below the stop trigger; for a SELL
it is not above it. -/
def ocoPriceOrderingBad (side : Side) (limitPrice stopPrice : ℚ) : Prop :=
  match side with
  | .buy => stopPrice ≤ limitPrice
  | .sell => limitPrice ≤ stopPrice

instance (side : Side) (lp sp : ℚ) : Decidable (ocoPriceOrderingBad side lp sp) := by
  unfold ocoPriceOrderingBad
  cases side <;> exact inferInstance

/-- Instance attributes assigned by `Order.__init__` (src/src/orders/base.py,
lines 30-71) when construction reaches its final log line, in assignment
order.  Note the validated quantity is stored in `original_quantity`
only; no attribute named `quantity` is ever created. -/
def orderBaseAttrs : List String :=
  ["client", "symbol", "original_quantity", "side", "params",
   "order_id", "status", "created_at", "updated_at", "filled_at",
   "filled_quantity", "avg_fill_price", "commission"]

/-- Attributes read, in order, by the f-string of `LimitOrder.__str__`
(src/src/orders/limit.py, lines 117-120). -/
def limitStrAttrs : List String :=
  ["order_type", "side", "quantity", "symbol", "price", "status", "order_id"]

/-- Attributes read, in order, by the f-string of `StopLimitOrder.__str__`
(src/src/orders/advanced/stop_limit.py, lines 135-139). -/
def stopLimitStrAttrs : List String :=
  ["order_type", "side", "quantity", "symbol", "stop_price", "price",
   "status", "order_id"]

/-- Reading a sequence of attributes from an object whose assigned
attribute names are `attrs`: the first read of an unassigned name raises
AttributeError, as in Python. -/
def readAttrs (attrs : List String) : List String → Except PyErr Unit
  | [] => .ok ()
  | a :: rest =>
      if a ∈ attrs then readAttrs attrs rest else .error (.attributeError a)

/-- Embedding of `Order.__init__` (src/src/orders/base.py, lines 30-71):
validates the quantity (see `validateQuantity`), the side and the symbol,
and on success returns the list of instance attributes it assigned.
`sideOk` and `symbolOk` are the outcomes of `_validate_side` and of
`client.validate_symbol` inside `_post_init_validation`; the final log
line reads only attributes the initializer itself assigned. -/
def orderBaseInit (quantity : ℚ) (lot : Option LotSizeFilter)
    (sideOk symbolOk : Bool) : Except PyErr (List String) :=
  match validateQuantity quantity lot with
  | .error e => .error e
  | .ok _ =>
      if !sideOk then .error .validationError
      else if !symbolOk then .error .validationError
      else .ok orderBaseAttrs

/-- Embedding of `LimitOrder.__init__` (src/src/orders/limit.py, lines
8-28): assigns `price`, runs the base initializer, assigns `order_type`
and `time_in_force`, checks the price, then evaluates the f-string
`Initialized {self}` of its final log call, whose formatting invokes
`LimitOrder.__str__` and therefore reads `limitStrAttrs`.  On success
the assigned attribute list is returned. -/
def limitOrderInit (quantity : ℚ) (lot : Option LotSizeFilter)
    (sideOk symbolOk : Bool) (price : ℚ) : Except PyErr (List String) :=
  match orderBaseInit quantity lot sideOk symbolOk with
  | .error e => .error e
  | .ok baseAttrs =>
      let attrs := "price" :: baseAttrs ++ ["order_type", "time_in_force"]
      if price ≤ 0 then .error .valueError
      else
        match readAttrs attrs limitStrAttrs with
        | .error e => .error e
        | .ok _ => .ok attrs

/-- Embedding of `StopLimitOrder.__init__` (src/src/orders/advanced/
stop_limit.py, lines 12-44): runs the `LimitOrder` initializer first
(any exception it raises propagates), reassigns `order_type`, assigns
`stop_price`, checks it, emits the stop-vs-market warning (a log only,
not modelled) and evaluates the final `Initialized {self}` f-string,
which reads `stopLimitStrAttrs`. -/
def stopLimitOrderInit (quantity : ℚ) (lot : Option LotSizeFilter)
    (sideOk symbolOk : Bool) (price stopPrice : ℚ) : Except PyErr (List String) :=
  match limitOrderInit quantity lot sideOk symbolOk price with
  | .error e => .error e
  | .ok attrs =>
      let attrs2 := attrs ++ ["stop_price"]
      if stopPrice ≤ 0 then .error .valueError
      else
        match readAttrs attrs2 stopLimitStrAttrs with
        | .error e => .error e
        | .ok _ => .ok attrs2

/-- Python value held by an order-id field: the exchange returns integer
ids, the code sometimes passes strings. -/
inductive PyVal
  | str (s : String)
  | int (n : ℤ)
  deriving DecidableEq, Repr

/-- Python truthiness of an optional order id: `None`, the empty string
and the integer zero are falsy. -/
def truthy : Option PyVal → Bool
  | none => false
  | some (.str s) => !s.isEmpty
  | some (.int n) => n != 0

/-- Mutable fields of an order object touched by the embedded methods.
`quantity`, `price` and `stopPrice` live on the Limit/StopLimit
subclasses (the base class only reads `orderId` and writes `status`);
the claims about `modify` presuppose an already placed order, so the
fields are taken as present. -/
structure OrdState where
  status : String
  orderId : Option PyVal
  quantity : ℚ
  price : ℚ
  stopPrice : ℚ
  deriving DecidableEq, Repr

/-- Embedding of `Order.cancel` (src/src/orders/base.py, lines 164-200):
takes `order_id or self.order_id`, raises ValidationError when the
resulting id is falsy or not a string, then calls the exchange
(`cancelOk` tells whether `futures_cancel_order` succeeds).  On success
it sets status CANCELED; on a gateway failure it raises OrderError.  The
order status is never inspected. -/
def orderCancel (passedId : Option PyVal) (cancelOk : Bool) (s : OrdState) :
    Except PyErr Unit × OrdState :=
  let oid := if truthy passedId then passedId else s.orderId
  if !truthy oid then (.error .validationError, s)
  else
    match oid with
    | some (.str _) =>
        if cancelOk then (.ok (), { s with status := "CANCELED" })
        else (.error .orderError, s)
    | _ => (.error .validationError, s)

/-- Status and id handling of `LimitOrder.place` (src/src/orders/limit.py,
lines 30-80): when `futures_create_order` raises, status is set FAILED
and the exception re-raised; on success the exchange id and status are
recorded.  `placeOut` is the response (`orderId`, `status`); fill
bookkeeping from the response is not observable by any claim. -/
def limitPlace (placeOut : Option (PyVal × String)) (s : OrdState) :
    Except PyErr Unit × OrdState :=
  match placeOut with
  | none => (.error .orderError, { s with status := "FAILED" })
  | some (oid, st) => (.ok (), { s with orderId := some oid, status := st })

/-- Status and id handling of `StopLimitOrder.place` (src/src/orders/
advanced/stop_limit.py, lines 46-97), identical to the limit case: FAILED
and re-raise on a create failure, record id and status on success. -/
def stopLimitPlace (placeOut : Option (PyVal × String)) (s : OrdState) :
    Except PyErr Unit × OrdState :=
  match placeOut with
  | none => (.error .orderError, { s with status := "FAILED" })
  | some (oid, st) => (.ok (), { s with orderId := some oid, status := st })

/-- Embedding of `LimitOrder.modify` (src/src/orders/limit.py, lines
82-115): requires a placed order and at least one new parameter, then
cancel-then-replace; exceptions from either step propagate (the except
block only logs and re-raises). -/
def limitModify (newQuantity newPrice : Option ℚ) (cancelOk : Bool)
    (placeOut : Option (PyVal × String)) (s : OrdState) :
    Except PyErr Unit × OrdState :=
  if !truthy s.orderId then (.error .valueError, s)
  else if newQuantity.isNone && newPrice.isNone then (.error .valueError, s)
  else
    match orderCancel none cancelOk s with
    | (.error e, s1) => (.error e, s1)
    | (.ok _, s1) =>
        let s2 := { s1 with quantity := newQuantity.getD s1.quantity,
                            price := newPrice.getD s1.price }
        limitPlace placeOut s2

/-- Embedding of `StopLimitOrder.modify` (src/src/orders/advanced/
stop_limit.py, lines 99-133): same cancel-then-replace with three
optional parameters. -/
def stopLimitModify (newQuantity newLimitPrice newStopPrice : Option ℚ)
    (cancelOk : Bool) (placeOut : Option (PyVal × String)) (s : OrdState) :
    Except PyErr Unit × OrdState :=
  if !truthy s.orderId then (.error .valueError, s)
  else if newQuantity.isNone && newLimitPrice.isNone && newStopPrice.isNone then
    (.error .valueError, s)
  else
    match orderCancel none cancelOk s with
    | (.error e, s1) => (.error e, s1)
    | (.ok _, s1) =>
        let s2 := { s1 with quantity := newQuantity.getD s1.quantity,
                            price := newLimitPrice.getD s1.price,
                            stopPrice := newStopPrice.getD s1.stopPrice }
        stopLimitPlace placeOut s2

/-- Outcome of one underlying API call attempt made by
`BinanceFuturesClient._make_request` (src/src/client.py). -/
inductive AttemptOutcome
  | success
  | binanceErr (statusCode : ℕ) (rateLimited : Bool)
  | otherErr
  deriving DecidableEq, Repr

/-- `BinanceFuturesClient.MAX_RETRIES` (src/src/client.py, line 22). -/
def MAX_RETRIES : ℕ := 3

/-- `BinanceFuturesClient.RETRY_DELAY` in seconds (src/src/client.py,
line 23). -/
def RETRY_DELAY : ℚ := 1

/-- The backoff `RETRY_DELAY * (2 ** attempt)` that `_make_request`
computes before its sleep call (src/src/client.py, line 210). -/
def backoffWait (attempt : ℕ) : ℚ := RETRY_DELAY * 2 ^ attempt

/-- Embedding of the loop body of `BinanceFuturesClient._make_request`
(src/src/client.py, lines 180-225); `fuel` counts the iterations left of
`for attempt in range(MAX_RETRIES)`.  A successful call returns; a
Binance client error (4xx, not rate limited) breaks and re-raises; a
non-Binance exception breaks and re-raises.  In the retriable branch the
source computes the backoff and calls `time.sleep(wait_time)` — but
client.py never imports the `time` module, so evaluating the global
`time` raises `NameError` out of the handler before any retry; the
iteration for the next attempt is therefore unreachable. -/
def makeRequestLoop (env : ℕ → AttemptOutcome) : ℕ → ℕ → Except PyErr Unit
  | 0, _ => .error .apiError
  | _ + 1, attempt =>
      match env attempt with
      | .success => .ok ()
      | .binanceErr code rateLimited =>
          if 400 ≤ code ∧ code < 500 ∧ rateLimited = false then .error .apiError
          else .error (.nameError "time")
      | .otherErr => .error .otherError

/-- Embedding of `BinanceFuturesClient._make_request`. -/
def makeRequest (env : ℕ → AttemptOutcome) : Except PyErr Unit :=
  makeRequestLoop env MAX_RETRIES 0

/-- Exchange responses consumed by one `OCOOrder.place` call
(src/src/orders/advanced/oco.py): whether `get_price` succeeds, the ids
returned by the two `futures_create_order` calls (`none` = the call
raises) and whether `futures_cancel_order` calls succeed. -/
structure OcoEnv where
  priceOk : Bool
  limitResult : Option ℕ
  stopResult : Option ℕ
  cancelOk : Bool
  deriving DecidableEq, Repr

/-- Mutable fields of `OCOOrder` the claims observe: `self.orders`
(populated with both leg ids only after both placements succeed, oco.py
lines 124-127) and `self.status`. -/
structure OcoState where
  orders : Option (ℕ × ℕ)
  status : String
  deriving DecidableEq, Repr

/-- Embedding of `OCOOrder.cancel` (src/src/orders/advanced/oco.py, lines
147-179): cancels whatever leg ids are recorded in `self.orders` and sets
status CANCELED; an empty `self.orders` cancels nothing.  The third
component lists the ids passed to `futures_cancel_order`. -/
def ocoCancel (cancelOk : Bool) (s : OcoState) :
    Except PyErr Unit × OcoState × List ℕ :=
  match s.orders with
  | none => (.ok (), { s with status := "CANCELED" }, [])
  | some (limitId, stopId) =>
      if cancelOk then (.ok (), { s with status := "CANCELED" }, [limitId, stopId])
      else (.error .orderError, s, [limitId])

/-- The exception handler of `OCOOrder.place` (oco.py, lines 139-145):
sets status FAILED, calls `self.cancel()` and re-raises; if the cleanup
cancel itself raises, that exception propagates instead. -/
def ocoFailCleanup (env : OcoEnv) (s : OcoState) :
    Except PyErr Unit × OcoState × List ℕ :=
  match ocoCancel env.cancelOk { s with status := "FAILED" } with
  | (.ok _, s1, canceled) => (.error .apiError, s1, canceled)
  | (.error e, s1, canceled) => (.error e, s1, canceled)

/-- Embedding of `OCOOrder.place` (src/src/orders/advanced/oco.py, lines
70-145): fetches the price, places the limit (take-profit) leg, then the
stop leg; `self.orders` is assigned only after both succeed.  Any
exception runs `ocoFailCleanup`.  The third component lists the ids
passed to `futures_cancel_order` during the call. -/
def ocoPlace (env : OcoEnv) (s : OcoState) :
    Except PyErr Unit × OcoState × List ℕ :=
  if !env.priceOk then ocoFailCleanup env s
  else
    match env.limitResult with
    | none => ocoFailCleanup env s
    | some limitId =>
        match env.stopResult with
        | none => ocoFailCleanup env s
        | some stopId =>
            (.ok (), { orders := some (limitId, stopId), status := "PLACED" }, [])

/-- Parameters of a `TWAPOrder` (src/src/orders/advanced/twap.py) that the
quantity claims depend on; the pure timing fields (duration, sleep
scheduling) are not observable by those claims. -/
structure TwapParams where
  totalQuantity : ℚ
  chunks : ℕ
  priceLimit : Option ℚ
  side : Side
  deriving DecidableEq, Repr

/-- `self.chunk_size = self.total_quantity / self.chunks` (twap.py,
line 37). -/
def chunkSize (p : TwapParams) : ℚ := p.totalQuantity / p.chunks

/-- Exchange responses consumed by one `TWAPOrder._place_chunk` call:
the `get_price` result (`none` = raises) and the `futures_create_order`
result as the `executedQty` of the response (`none` = raises). -/
structure ChunkOutcome where
  priceResult : Option ℚ
  createResult : Option ℚ
  deriving DecidableEq, Repr

/-- Record of one `futures_create_order` submission issued by
`_place_chunk`: the `filled_quantity` at submission time and the
quantity submitted in the order parameters. -/
structure PlacedChunk where
  filledBefore : ℚ
  qty : ℚ
  deriving DecidableEq, Repr

/-- Mutable `TWAPOrder` fields the quantity claims observe.  `placedLog`
instruments every `futures_create_order` submission (the source appends
response data to `self.orders` only after a successful call; the log
records the call itself, so a final aborting call is included). -/
structure TwapState where
  filledQuantity : ℚ
  placedLog : List PlacedChunk
  status : String
  deriving DecidableEq, Repr

/-- The price-limit skip test of `_place_chunk` (twap.py, lines 98-105):
a BUY chunk is skipped above the limit, a SELL chunk below it. -/
def twapSkipByLimit (p : TwapParams) (price : ℚ) : Bool :=
  match p.priceLimit with
  | none => false
  | some lim =>
      match p.side with
      | .buy => decide (lim < price)
      | .sell => decide (price < lim)

/-- Embedding of `TWAPOrder._place_chunk` (src/src/orders/advanced/twap.py,
lines 76-153): computes `chunk_qty = min(chunk_size, total_quantity -
filled_quantity)`, returns without placing when nothing remains or when
the price limit is violated, otherwise submits the chunk; the filled
quantity grows by the `executedQty` of the response when positive.
Exceptions from `get_price` or `futures_create_order` propagate. -/
def placeChunk (p : TwapParams) (out : ChunkOutcome) (s : TwapState) :
    Except PyErr Unit × TwapState :=
  let chunkQty := min (chunkSize p) (p.totalQuantity - s.filledQuantity)
  if chunkQty ≤ 0 then (.ok (), s)
  else
    match out.priceResult with
    | none => (.error .apiError, s)
    | some price =>
        if twapSkipByLimit p price then (.ok (), s)
        else
          let s1 := { s with placedLog := s.placedLog ++ [⟨s.filledQuantity, chunkQty⟩] }
          match out.createResult with
          | none => (.error .apiError, s1)
          | some execQty =>
              if 0 < execQty then
                (.ok (), { s1 with filledQuantity := s1.filledQuantity + execQty })
              else (.ok (), s1)

/-- The final status classification of `TWAPOrder.execute` (twap.py, lines
196-205): COMPLETED at 99 percent or more filled, else
PARTIALLY_FILLED. -/
def twapFinishStatus (p : TwapParams) (s : TwapState) : TwapState :=
  if p.totalQuantity * (99 / 100) ≤ s.filledQuantity then { s with status := "COMPLETED" }
  else { s with status := "PARTIALLY_FILLED" }

/-- Embedding of the loop `for i in range(2, self.chunks + 1)` of
`TWAPOrder.execute` (twap.py, lines 178-194); `fuel` counts the
iterations left.  The sleep before each placement only suspends and is
not observable by the quantity claims.  After each chunk the loop breaks
once the total quantity is filled; a placement exception sets FAILED and
propagates. -/
def twapExecuteRest (p : TwapParams) (env : ℕ → ChunkOutcome) :
    ℕ → ℕ → TwapState → Except PyErr Unit × TwapState
  | 0, _, s => (.ok (), twapFinishStatus p s)
  | fuel + 1, i, s =>
      match placeChunk p (env i) s with
      | (.error e, s1) => (.error e, { s1 with status := "FAILED" })
      | (.ok _, s1) =>
          if p.totalQuantity ≤ s1.filledQuantity then (.ok (), twapFinishStatus p s1)
          else twapExecuteRest p env fuel (i + 1) s1

/-- Embedding of `TWAPOrder.execute` (src/src/orders/advanced/twap.py,
lines 155-227): sets status EXECUTING, places chunk 1 immediately, then
runs the remaining `chunks - 1` loop iterations; `env i` supplies the
exchange responses for chunk `i`. -/
def twapExecute (p : TwapParams) (env : ℕ → ChunkOutcome) :
    Except PyErr Unit × TwapState :=
  let s0 : TwapState := ⟨0, [], "EXECUTING"⟩
  match placeChunk p (env 1) s0 with
  | (.error e, s1) => (.error e, { s1 with status := "FAILED" })
  | (.ok _, s1) => twapExecuteRest p env (p.chunks - 1) 2 s1

/-- The per-chunk quantity law of C5: a submission carries exactly
`min(chunk_size, total_quantity - filled_so_far)`. -/
def GoodChunk (p : TwapParams) (c : PlacedChunk) : Prop :=
  c.qty = min (chunkSize p) (p.totalQuantity - c.filledBefore)

/-- Round-half-to-even on rationals, the rounding of Python `round`. -/
def roundHalfEven (x : ℚ) : ℤ :=
  if x - ⌊x⌋ = 1 / 2 then (if ⌊x⌋ % 2 = 0 then ⌊x⌋ else ⌊x⌋ + 1) else round x

/-- Python `round(x, 2)`. -/
def pyRound2 (x : ℚ) : ℚ := (roundHalfEven (x * 100) : ℚ) / 100

/-- Python `round(x, 6)`. -/
def pyRound6 (x : ℚ) : ℚ := (roundHalfEven (x * 1000000) : ℚ) / 1000000

/-- One grid level dict as built by `GridOrder._calculate_grid_levels`
(src/src/orders/advanced/grid.py, lines 48-61); the `side` key is added
later by `_place_order`. -/
structure GridLevel where
  price : ℚ
  quantity : ℚ
  orderId : Option ℕ
  status : String
  side : Option String
  deriving DecidableEq, Repr

/-- Embedding of `GridOrder._calculate_grid_levels` (grid.py, lines
48-61): `grid_count` levels at `lower_price + i * price_step` rounded to
2 decimals, each carrying `quantity / (grid_count - 1)` rounded to 6
decimals, status PENDING and no order. -/
def calcGridLevels (lowerPrice upperPrice : ℚ) (gridCount : ℕ) (quantity : ℚ) :
    List GridLevel :=
  let priceStep := (upperPrice - lowerPrice) / ((gridCount : ℚ) - 1)
  let qtyPerLevel := quantity / ((gridCount : ℚ) - 1)
  (List.range gridCount).map fun i : ℕ =>
    { price := pyRound2 (lowerPrice + (i : ℚ) * priceStep),
      quantity := pyRound6 qtyPerLevel,
      orderId := none,
      status := "PENDING",
      side := none }

/-- The price ladder of the grid: the `price` entries of
`_calculate_grid_levels` in level order. -/
def gridLevelPrices (lowerPrice upperPrice : ℚ) (gridCount : ℕ) : List ℚ :=
  (calcGridLevels lowerPrice upperPrice gridCount 1).map GridLevel.price

/-- Grid side mode, the validated `BOTH`/`LONG`/`SHORT` strings. -/
inductive GridSide
  | both
  | long
  | short
  deriving DecidableEq, Repr

/-- `self.side in ['BOTH', 'LONG']` (grid.py, line 71). -/
def sideIncludesLong : GridSide → Bool
  | .both => true
  | .long => true
  | .short => false

/-- `self.side in ['BOTH', 'SHORT']` (grid.py, line 73). -/
def sideIncludesShort : GridSide → Bool
  | .both => true
  | .short => true
  | .long => false

/-- Embedding of `GridOrder._place_order` (grid.py, lines 76-92) for the
level at position `idx`: on a successful `futures_create_order` (the
environment `env` yields the exchange id of placement call number `k`)
the level records the id, status ACTIVE and the side; on failure the
exception is printed and swallowed, leaving the level unchanged.  The
returned list logs the successful submission as (level index, side,
exchange id). -/
def gridPlaceOrder (env : ℕ → Option ℕ) (k idx : ℕ) (lv : GridLevel) (sd : String) :
    GridLevel × List (ℕ × String × ℕ) :=
  match env k with
  | some oid =>
      ({ lv with orderId := some oid, status := "ACTIVE", side := some sd }, [(idx, sd, oid)])
  | none => (lv, [])

/-- One iteration of the loop of `GridOrder._place_initial_orders`
(grid.py, lines 68-74): a BUY placement when the side mode includes
LONG, then a SELL placement when the side mode includes SHORT and the
level price exceeds the fetched market price (`priceAt idx` embeds the
`_get_current_price()` call made for level `idx`; the price fetch only
happens when the SHORT membership test passes, by short-circuiting).
Returns the updated level, the placement log and the next placement
counter. -/
def gridPlaceLevel (gside : GridSide) (priceAt : ℕ → ℚ) (env : ℕ → Option ℕ)
    (k idx : ℕ) (lv : GridLevel) : GridLevel × List (ℕ × String × ℕ) × ℕ :=
  let step1 :=
    if sideIncludesLong gside then
      let r := gridPlaceOrder env k idx lv "BUY"
      (r.1, r.2, k + 1)
    else (lv, [], k)
  if sideIncludesShort gside && decide (priceAt idx < step1.1.price) then
    let r2 := gridPlaceOrder env step1.2.2 idx step1.1 "SELL"
    (r2.1, step1.2.1 ++ r2.2, step1.2.2 + 1)
  else step1

/-- Embedding of `GridOrder._place_initial_orders` (grid.py, lines
68-74), iterating `gridPlaceLevel` over the levels; `k` numbers the
placement calls and `idx` the levels. -/
def gridPlaceInitialOrders (gside : GridSide) (priceAt : ℕ → ℚ) (env : ℕ → Option ℕ) :
    ℕ → ℕ → List GridLevel → List GridLevel × List (ℕ × String × ℕ)
  | _, _, [] => ([], [])
  | k, idx, lv :: rest =>
      let r := gridPlaceLevel gside priceAt env k idx lv
      let rr := gridPlaceInitialOrders gside priceAt env r.2.2 (idx + 1) rest
      (r.1 :: rr.1, r.2.1 ++ rr.2)

/-- Embedding of `GridOrder.start` (grid.py, lines 63-66): sets status
RUNNING (not part of the returned data) and places the initial orders. -/
def gridStart (gside : GridSide) (priceAt : ℕ → ℚ) (env : ℕ → Option ℕ)
    (levels : List GridLevel) : List GridLevel × List (ℕ × String × ℕ) :=
  gridPlaceInitialOrders gside priceAt env 0 0 levels

/-- C3: for every quantity `q > 0` that passes validation against a
LOT_SIZE filter with step size `s > 0` and `minQty ≤ q ≤ maxQty`,
`Order._validate_quantity` returns exactly `⌊q / s⌋ * s`, and this value
never exceeds `q` (rounding is never upward). -/
theorem validate_quantity_floor (q : ℚ) (f : LotSizeFilter)
    (hq : 0 < q) (hs : 0 < f.stepSize) (hmin : f.minQty ≤ q) (hmax : q ≤ f.maxQty) :
    validateQuantity q (some f) = .ok ((⌊q / f.stepSize⌋ : ℚ) * f.stepSize) ∧
      (⌊q / f.stepSize⌋ : ℚ) * f.stepSize ≤ q := by
  have h1 : ¬ q ≤ 0 := not_le.mpr hq
  have h2 : ¬ q < f.minQty := not_lt.mpr hmin
  have h3 : ¬ f.maxQty < q := not_lt.mpr hmax
  refine ⟨by simp [validateQuantity, h1, h2, h3, hs], ?_⟩
  calc (⌊q / f.stepSize⌋ : ℚ) * f.stepSize
      ≤ q / f.stepSize * f.stepSize :=
        mul_le_mul_of_nonneg_right (Int.floor_le _) hs.le
    _ = q := div_mul_cancel₀ q hs.ne'

/-- Witness for C3 at `q = 10`, step `3`, bounds `[1, 100]`: the result is
`⌊10 / 3⌋ * 3 = 9 ≤ 10`. -/
theorem validate_quantity_floor_witness :
    0 < (10 : ℚ) ∧ 0 < (3 : ℚ) ∧ (1 : ℚ) ≤ 10 ∧ (10 : ℚ) ≤ 100 ∧
      (validateQuantity 10 (some ⟨1, 100, 3⟩) = .ok ((⌊(10 : ℚ) / 3⌋ : ℚ) * 3) ∧
        (⌊(10 : ℚ) / 3⌋ : ℚ) * 3 ≤ 10) :=
  ⟨by norm_num, by norm_num, by norm_num, by norm_num,
    validate_quantity_floor 10 ⟨1, 100, 3⟩ (by norm_num) (by norm_num) (by norm_num) (by norm_num)⟩

/-- C6: `OCOOrder._validate_inputs`, run by the constructor before any
placement call, rejects every BUY whose take-profit limit price is not
below the stop trigger and every SELL whose limit price is not above it;
the BUY scenario limit 49000 / stop 50000 / stop-limit 50500 passes
validation while limit 51000 against the same stop is rejected. -/
theorem oco_price_ordering_validation (side : Side) (q lp sp slp : ℚ) (sv : Bool)
    (h : ocoPriceOrderingBad side lp sp) :
    ocoValidateInputs side q lp sp slp sv ≠ .ok () ∧
      ocoValidateInputs .buy 1 49000 50000 50500 true = .ok () ∧
      ocoValidateInputs .buy 1 51000 50000 50500 true ≠ .ok () := by
  refine ⟨?_, by norm_num [ocoValidateInputs]; try simp,
    by norm_num [ocoValidateInputs]; try simp⟩
  cases side <;>
    simp only [ocoValidateInputs, ocoPriceOrderingBad] at h ⊢ <;>
    split_ifs <;> simp_all

/-- Witness for C6: a BUY with limit 51000 on stop 50000 violates the
price ordering and is rejected before any placement. -/
theorem oco_price_ordering_validation_witness :
    ocoPriceOrderingBad .buy 51000 50000 ∧
      (ocoValidateInputs .buy 2 51000 50000 50500 true ≠ .ok () ∧
        ocoValidateInputs .buy 1 49000 50000 50500 true = .ok () ∧
        ocoValidateInputs .buy 1 51000 50000 50500 true ≠ .ok ()) :=
  ⟨by norm_num [ocoPriceOrderingBad],
    oco_price_ordering_validation .buy 2 51000 50000 50500 true
      (by norm_num [ocoPriceOrderingBad])⟩

/-- C2: for any arguments that pass validation (the quantity validates,
side and symbol are accepted, the price is positive), `LimitOrder.__init__`
— and through it `StopLimitOrder.__init__` — raises
`AttributeError` on the attribute `quantity` before returning: the final
log f-string formats `self`, and `__str__` reads `self.quantity`, which
no initializer ever assigns (the base class stores the validated value
in `original_quantity` only). -/
theorem limit_order_init_raises (q : ℚ) (lot : Option LotSizeFilter) (v : ℚ)
    (hv : validateQuantity q lot = .ok v) (price stopPrice : ℚ) (hp : 0 < price) :
    limitOrderInit q lot true true price = .error (.attributeError "quantity") ∧
      stopLimitOrderInit q lot true true price stopPrice =
        .error (.attributeError "quantity") := by
  have h2 : ¬ price ≤ 0 := not_le.mpr hp
  have h1 : limitOrderInit q lot true true price = .error (.attributeError "quantity") := by
    simp [limitOrderInit, orderBaseInit, hv, h2, readAttrs, limitStrAttrs, orderBaseAttrs]
  exact ⟨h1, by simp only [stopLimitOrderInit, h1]⟩

/-- Witness for C2: a fully valid limit order of 10 units at price 50000
(stop 49000 for the stop-limit case) still raises AttributeError. -/
theorem limit_order_init_raises_witness :
    validateQuantity 10 none = .ok 10 ∧ 0 < (50000 : ℚ) ∧
      (limitOrderInit 10 none true true 50000 = .error (.attributeError "quantity") ∧
        stopLimitOrderInit 10 none true true 50000 49000 =
          .error (.attributeError "quantity")) :=
  ⟨by norm_num [validateQuantity], by norm_num,
    limit_order_init_raises 10 none 10 (by norm_num [validateQuantity]) 50000 49000
      (by norm_num)⟩

/-- Counterexample to C9: an order in the terminal state FILLED with a
known exchange id is canceled without any ValidationError — the claimed
non-terminal-state precondition is never checked, and the gateway call
succeeds, leaving status CANCELED. -/
theorem order_cancel_terminal_counterexample :
    orderCancel none true ⟨"FILLED", some (.str "123"), 1, 0, 0⟩ =
      (.ok (), ⟨"CANCELED", some (.str "123"), 1, 0, 0⟩) := rfl

/-- C9 as amended: `Order.cancel` requires only a usable order id — when
the effective id (`order_id or self.order_id`) is a non-empty string it
calls the gateway regardless of the order state, sets status CANCELED on
success and raises OrderError on a gateway failure; a missing id raises
ValidationError. -/
theorem order_cancel_id_only (passedId : Option PyVal) (cancelOk : Bool) (s : OrdState)
    (t : String) (hid : (if truthy passedId then passedId else s.orderId) = some (.str t))
    (ht : t.isEmpty = false) :
    orderCancel passedId cancelOk s =
      (if cancelOk then (.ok (), { s with status := "CANCELED" })
       else (.error .orderError, s)) ∧
      (orderCancel none cancelOk { s with orderId := none }).1 = .error .validationError := by
  constructor
  · simp only [orderCancel, hid]
    simp [truthy, ht]
  · simp [orderCancel, truthy]

/-- Witness for C9 (amended) on a FILLED order with id 123 and a
succeeding gateway call. -/
theorem order_cancel_id_only_witness :
    (if truthy none then none
     else (⟨"FILLED", some (.str "123"), 1, 0, 0⟩ : OrdState).orderId) = some (.str "123") ∧
      ("123".isEmpty = false) ∧
      (orderCancel none true ⟨"FILLED", some (.str "123"), 1, 0, 0⟩ =
          (if true then (.ok (), { (⟨"FILLED", some (.str "123"), 1, 0, 0⟩ : OrdState) with
              status := "CANCELED" })
           else (.error .orderError, ⟨"FILLED", some (.str "123"), 1, 0, 0⟩)) ∧
        (orderCancel none true { (⟨"FILLED", some (.str "123"), 1, 0, 0⟩ : OrdState) with
            orderId := none }).1 = .error .validationError) :=
  ⟨rfl, rfl, order_cancel_id_only none true ⟨"FILLED", some (.str "123"), 1, 0, 0⟩ "123" rfl rfl⟩

/-- Counterexample to C8: on a NEW order with id 42, `modify` with a new
price succeeds in canceling but the replacement placement fails; the
final status is FAILED, not the claimed CANCELED. -/
theorem limit_modify_status_counterexample :
    limitModify none (some 51000) true none ⟨"NEW", some (.str "42"), 1, 50000, 0⟩ =
      (.error .orderError, ⟨"FAILED", some (.str "42"), 1, 51000, 0⟩) ∧
      ("FAILED" : String) ≠ "CANCELED" := ⟨rfl, by decide⟩

/-- C8 as amended: for every placed order, when the internal cancel step
of `modify` succeeds and the replacement placement fails, the placement
failure is raised to the caller and the order is left with status FAILED
(assigned by the except handler of `place`), not CANCELED; the order is
not silently re-placed.  This holds for `LimitOrder.modify` and
`StopLimitOrder.modify` alike. -/
theorem modify_replace_failure_leaves_failed (newQuantity newPrice newStopPrice : Option ℚ)
    (s : OrdState) (t : String) (hid : s.orderId = some (.str t)) (ht : t.isEmpty = false)
    (hparam : newQuantity.isSome ∨ newPrice.isSome) :
    (limitModify newQuantity newPrice true none s).1 = .error .orderError ∧
      (limitModify newQuantity newPrice true none s).2.status = "FAILED" ∧
      (stopLimitModify newQuantity newPrice newStopPrice true none s).1 = .error .orderError ∧
      (stopLimitModify newQuantity newPrice newStopPrice true none s).2.status = "FAILED" := by
  have htr : truthy s.orderId = true := by rw [hid]; simp [truthy, ht]
  have hcancel : orderCancel none true s = (.ok (), { s with status := "CANCELED" }) := by
    simp only [orderCancel]
    simp [truthy, hid, ht]
  have hnb : (newQuantity.isNone && newPrice.isNone) = false := by
    rcases hparam with h | h <;> cases newQuantity <;> cases newPrice <;> simp_all
  have hnb3 : (newQuantity.isNone && newPrice.isNone && newStopPrice.isNone) = false := by
    rcases hparam with h | h <;> cases newQuantity <;> cases newPrice <;> simp_all
  refine ⟨?_, ?_, ?_, ?_⟩ <;>
    simp [limitModify, stopLimitModify, htr, hnb, hnb3, hcancel, limitPlace, stopLimitPlace]

/-- Witness for C8 (amended): a placed NEW order with id 42, new
quantity 51000, succeeding cancel and failing replacement. -/
theorem modify_replace_failure_witness :
    (⟨"NEW", some (.str "42"), 1, 50000, 0⟩ : OrdState).orderId = some (.str "42") ∧
      ("42".isEmpty = false) ∧ ((some (51000 : ℚ)).isSome ∨ (none : Option ℚ).isSome) ∧
      ((limitModify (some 51000) none true none ⟨"NEW", some (.str "42"), 1, 50000, 0⟩).1 =
          .error .orderError ∧
        (limitModify (some 51000) none true none
            ⟨"NEW", some (.str "42"), 1, 50000, 0⟩).2.status = "FAILED" ∧
        (stopLimitModify (some 51000) none none true none
            ⟨"NEW", some (.str "42"), 1, 50000, 0⟩).1 = .error .orderError ∧
        (stopLimitModify (some 51000) none none true none
            ⟨"NEW", some (.str "42"), 1, 50000, 0⟩).2.status = "FAILED") :=
  ⟨rfl, rfl, Or.inl rfl,
    modify_replace_failure_leaves_failed (some 51000) none none
      ⟨"NEW", some (.str "42"), 1, 50000, 0⟩ "42" rfl rfl (Or.inl rfl)⟩

/-- C1 (code bug): when the limit (take-profit) leg is accepted with
exchange id 7 and the stop leg placement raises, `OCOOrder.place`
propagates the error but its cleanup cancels nothing — the id list passed
to `futures_cancel_order` is empty, because `self.orders` is only
assigned after BOTH legs succeed, so the resting take-profit leg is left
on the exchange (while the no-op `cancel()` even reports CANCELED). -/
theorem oco_place_partial_failure_not_rolled_back :
    ocoPlace ⟨true, some 7, none, true⟩ ⟨none, "INITIALIZED"⟩ =
      (.error .apiError, ⟨none, "CANCELED"⟩, []) := rfl

/-- C7 (code bug): a transient server error (HTTP 500) on the first
attempt, with a second attempt that would succeed, is never retried —
`_make_request` raises NameError on the missing `time` global instead of
sleeping and retrying, so the success at attempt 2 is unreachable. -/
theorem make_request_no_retry :
    makeRequest (fun i => if i = 0 then .binanceErr 500 false else .success) =
      .error (.nameError "time") ∧
      makeRequest (fun _ => .success) = .ok () := ⟨rfl, rfl⟩

/-- Rounding half-to-even fixes integers. -/
theorem roundHalfEven_intCast (z : ℤ) : roundHalfEven (z : ℚ) = z := by
  unfold roundHalfEven
  rw [Int.floor_intCast]
  have h : ((z : ℚ) - z ≠ 1 / 2) := by norm_num
  rw [if_neg h, round_intCast]

/-- Python `round(x, 2)` is exact on integer multiples of `1 / 100`. -/
theorem pyRound2_div_int (z : ℤ) : pyRound2 ((z : ℚ) / 100) = (z : ℚ) / 100 := by
  unfold pyRound2
  rw [div_mul_cancel₀ _ (by norm_num : (100 : ℚ) ≠ 0), roundHalfEven_intCast]

/-- C4 as amended: when the lower price and the step
`(upper - lower) / (grid_count - 1)` are integer multiples of `0.01` (so
the 2-decimal rounding of `_calculate_grid_levels` is exact, as in the
scenario), the computed level prices increase monotonically with exactly
that fixed step between consecutive levels; upper 52000 / lower 48000 /
grid_count 5 yields exactly 48000, 49000, 50000, 51000, 52000. -/
theorem grid_levels_fixed_step (lowerPrice upperPrice : ℚ) (gridCount : ℕ) (a b : ℤ)
    (hlu : lowerPrice < upperPrice) (hc : 2 ≤ gridCount)
    (ha : lowerPrice = (a : ℚ) / 100)
    (hb : (upperPrice - lowerPrice) / ((gridCount : ℚ) - 1) = (b : ℚ) / 100) :
    List.Chain'
        (fun x y => y = x + (upperPrice - lowerPrice) / ((gridCount : ℚ) - 1) ∧ x < y)
        (gridLevelPrices lowerPrice upperPrice gridCount) ∧
      gridLevelPrices 48000 52000 5 = [48000, 49000, 50000, 51000, 52000] := by
  constructor
  · have hc1 : (0 : ℚ) < (gridCount : ℚ) - 1 := by
      have h2 : (2 : ℚ) ≤ (gridCount : ℚ) := by exact_mod_cast hc
      linarith
    have hpos : 0 < (upperPrice - lowerPrice) / ((gridCount : ℚ) - 1) :=
      div_pos (by linarith) hc1
    have hlin : ∀ i : ℕ,
        lowerPrice + i * ((upperPrice - lowerPrice) / ((gridCount : ℚ) - 1)) =
          ((a + i * b : ℤ) : ℚ) / 100 := by
      intro i
      rw [hb, ha]
      push_cast
      ring
    have hlevel : ∀ i : ℕ,
        pyRound2 (lowerPrice + i * ((upperPrice - lowerPrice) / ((gridCount : ℚ) - 1))) =
          lowerPrice + i * ((upperPrice - lowerPrice) / ((gridCount : ℚ) - 1)) := by
      intro i
      rw [hlin i, pyRound2_div_int]
    have hmap : gridLevelPrices lowerPrice upperPrice gridCount =
        (List.range gridCount).map
          (fun i : ℕ =>
            lowerPrice + (i : ℚ) * ((upperPrice - lowerPrice) / ((gridCount : ℚ) - 1))) := by
      unfold gridLevelPrices calcGridLevels
      rw [List.map_map]
      refine List.map_congr_left fun i _ => ?_
      simpa [Function.comp] using hlevel i
    rw [hmap, List.chain'_map]
    obtain ⟨n, rfl⟩ : ∃ n, gridCount = n + 1 := ⟨gridCount - 1, by omega⟩
    rw [List.chain'_range_succ]
    intro m hm
    have hstep : ((m : ℚ) + 1) * ((upperPrice - lowerPrice) / (((n : ℚ) + 1) - 1)) =
        (m : ℚ) * ((upperPrice - lowerPrice) / (((n : ℚ) + 1) - 1)) +
          (upperPrice - lowerPrice) / (((n : ℚ) + 1) - 1) := by ring
    constructor
    · push_cast
      push_cast at hstep
      linarith
    · push_cast
      push_cast at hstep hpos
      linarith
  · norm_num [gridLevelPrices, calcGridLevels, List.range_succ, pyRound2, roundHalfEven,
      round_eq]

/-- Counterexample to C4 as stated: lower 1.001, upper 1.003,
grid_count 3 satisfy the validated invariants, yet `round(price, 2)`
collapses all three level prices to 1.0 — the levels are not
monotonically increasing and the step between consecutive levels is 0,
not `(upper - lower) / 2`. -/
theorem grid_levels_rounding_counterexample :
    (1001 / 1000 : ℚ) < 1003 / 1000 ∧ 2 ≤ 3 ∧
      gridLevelPrices (1001 / 1000) (1003 / 1000) 3 = [1, 1, 1] ∧
      ¬ List.Chain' (· < ·) (gridLevelPrices (1001 / 1000) (1003 / 1000) 3) := by
  have h : gridLevelPrices (1001 / 1000) (1003 / 1000) 3 = [1, 1, 1] := by
    norm_num [gridLevelPrices, calcGridLevels, List.range_succ, pyRound2, roundHalfEven,
      round_eq]
  refine ⟨by norm_num, by norm_num, h, ?_⟩
  rw [h]
  simp

/-- Witness for C4 (amended) at the spec scenario 48000 / 52000 / 5. -/
theorem grid_levels_fixed_step_witness :
    (48000 : ℚ) < 52000 ∧ 2 ≤ 5 ∧ (48000 : ℚ) = ((4800000 : ℤ) : ℚ) / 100 ∧
      ((52000 : ℚ) - 48000) / (((5 : ℕ) : ℚ) - 1) = ((100000 : ℤ) : ℚ) / 100 ∧
      (List.Chain'
          (fun x y => y = x + ((52000 : ℚ) - 48000) / (((5 : ℕ) : ℚ) - 1) ∧ x < y)
          (gridLevelPrices 48000 52000 5) ∧
        gridLevelPrices 48000 52000 5 = [48000, 49000, 50000, 51000, 52000]) :=
  ⟨by norm_num, by norm_num, by norm_num, by norm_num,
    grid_levels_fixed_step 48000 52000 5 4800000 100000 (by norm_num) (by norm_num)
      (by norm_num) (by norm_num)⟩

/-- The final status classification never touches the submission log. -/
theorem twapFinishStatus_placedLog (p : TwapParams) (s : TwapState) :
    (twapFinishStatus p s).placedLog = s.placedLog := by
  unfold twapFinishStatus
  split_ifs <;> rfl

/-- One `_place_chunk` call either submits nothing or submits exactly one
chunk of quantity `min(chunk_size, total_quantity - filled_so_far)`. -/
theorem placeChunk_placedLog (p : TwapParams) (out : ChunkOutcome) (s : TwapState) :
    (placeChunk p out s).2.placedLog = s.placedLog ∨
      (placeChunk p out s).2.placedLog = s.placedLog ++
        [⟨s.filledQuantity, min (chunkSize p) (p.totalQuantity - s.filledQuantity)⟩] := by
  rcases out with ⟨pr, cr⟩
  cases pr <;> cases cr <;> simp only [placeChunk] <;> split_ifs <;>
    first
      | exact Or.inl rfl
      | exact Or.inr rfl

/-- One `_place_chunk` call preserves the per-chunk quantity law and grows
the submission log by at most one entry. -/
theorem placeChunk_log_spec (p : TwapParams) (out : ChunkOutcome) (s : TwapState)
    (h : ∀ c ∈ s.placedLog, GoodChunk p c) :
    (∀ c ∈ (placeChunk p out s).2.placedLog, GoodChunk p c) ∧
      (placeChunk p out s).2.placedLog.length ≤ s.placedLog.length + 1 := by
  rcases placeChunk_placedLog p out s with heq | heq <;> rw [heq]
  · exact ⟨h, by omega⟩
  · constructor
    · intro c hc
      rcases List.mem_append.mp hc with hc | hc
      · exact h c hc
      · rw [List.mem_singleton.mp hc]
        rfl
    · simp

/-- Loop invariant of `TWAPOrder.execute`: the per-chunk quantity law
holds for every submission and each iteration submits at most once. -/
theorem twapExecuteRest_log_spec (p : TwapParams) (env : ℕ → ChunkOutcome) :
    ∀ (fuel i : ℕ) (s : TwapState), (∀ c ∈ s.placedLog, GoodChunk p c) →
      (∀ c ∈ (twapExecuteRest p env fuel i s).2.placedLog, GoodChunk p c) ∧
        (twapExecuteRest p env fuel i s).2.placedLog.length ≤ s.placedLog.length + fuel := by
  intro fuel
  induction fuel with
  | zero =>
      intro i s h
      simp only [twapExecuteRest, twapFinishStatus_placedLog]
      exact ⟨h, by omega⟩
  | succ n ih =>
      intro i s h
      simp only [twapExecuteRest]
      rcases hpc : placeChunk p (env i) s with ⟨r, s1⟩
      have hspec := placeChunk_log_spec p (env i) s h
      rw [hpc] at hspec
      dsimp only at hspec
      cases r with
      | error e =>
          simp only
          exact ⟨hspec.1, by simpa using le_trans hspec.2 (by omega)⟩
      | ok u =>
          simp only
          split_ifs with hfill
          · rw [twapFinishStatus_placedLog]
            exact ⟨hspec.1, le_trans hspec.2 (by omega)⟩
          · have hrest := ih (i + 1) s1 hspec.1
            exact ⟨hrest.1, le_trans hrest.2 (by omega)⟩

/-- Submissions obeying the per-chunk law, at most `chunks` of them, sum
to at most the total quantity, because each is bounded by
`chunk_size = total / chunks`. -/
theorem twap_sum_le (p : TwapParams) (l : List PlacedChunk)
    (htot : 0 < p.totalQuantity) (hch : 0 < p.chunks)
    (hg : ∀ c ∈ l, GoodChunk p c) (hlen : l.length ≤ p.chunks) :
    (l.map PlacedChunk.qty).sum ≤ p.totalQuantity := by
  have hchq : ((p.chunks : ℚ)) ≠ 0 := Nat.cast_ne_zero.mpr hch.ne'
  have hcs : (0 : ℚ) ≤ chunkSize p :=
    le_of_lt (div_pos htot (by exact_mod_cast hch))
  have hb : ∀ x ∈ l.map PlacedChunk.qty, x ≤ chunkSize p := by
    intro x hx
    rcases List.mem_map.mp hx with ⟨c, hc, rfl⟩
    rw [hg c hc]
    exact min_le_left _ _
  calc (l.map PlacedChunk.qty).sum
      ≤ (l.map PlacedChunk.qty).length • chunkSize p := List.sum_le_card_nsmul _ _ hb
    _ = (l.length : ℚ) * chunkSize p := by rw [List.length_map, nsmul_eq_mul]
    _ ≤ (p.chunks : ℚ) * chunkSize p := by
        apply mul_le_mul_of_nonneg_right _ hcs
        exact_mod_cast hlen
    _ = p.totalQuantity := by rw [chunkSize, mul_comm, div_mul_cancel₀ _ hchq]

/-- C5: in every TWAP execution each placed chunk quantity equals
`min(chunk_size, total_quantity - filled_so_far)`; consequently the sum
of all chunk quantities placed never exceeds `total_quantity` and the
number of chunks placed never exceeds the chunk count. -/
theorem twap_chunk_invariants (p : TwapParams) (env : ℕ → ChunkOutcome)
    (htot : 0 < p.totalQuantity) (hch : 0 < p.chunks) :
    (∀ c ∈ (twapExecute p env).2.placedLog,
        c.qty = min (chunkSize p) (p.totalQuantity - c.filledBefore)) ∧
      ((twapExecute p env).2.placedLog.map PlacedChunk.qty).sum ≤ p.totalQuantity ∧
      (twapExecute p env).2.placedLog.length ≤ p.chunks := by
  have hmain : (∀ c ∈ (twapExecute p env).2.placedLog, GoodChunk p c) ∧
      (twapExecute p env).2.placedLog.length ≤ p.chunks := by
    simp only [twapExecute]
    rcases hpc : placeChunk p (env 1) ⟨0, [], "EXECUTING"⟩ with ⟨r, s1⟩
    have hspec := placeChunk_log_spec p (env 1) ⟨0, [], "EXECUTING"⟩ (by simp)
    rw [hpc] at hspec
    dsimp only at hspec
    cases r with
    | error e =>
        simp only
        refine ⟨hspec.1, le_trans hspec.2 ?_⟩
        simp only [List.length_nil]
        omega
    | ok u =>
        simp only
        have hrest := twapExecuteRest_log_spec p env (p.chunks - 1) 2 s1 hspec.1
        refine ⟨hrest.1, le_trans hrest.2 ?_⟩
        have h1 : s1.placedLog.length ≤ 1 := by simpa using hspec.2
        omega
  exact ⟨hmain.1, twap_sum_le p _ htot hch hmain.1 hmain.2, hmain.2⟩

/-- Witness for C5: total 0.1 in 2 chunks, each submission filled for
0.05 at price 100. -/
theorem twap_chunk_invariants_witness :
    0 < (⟨1/10, 2, none, .buy⟩ : TwapParams).totalQuantity ∧
      0 < (⟨1/10, 2, none, .buy⟩ : TwapParams).chunks ∧
      ((∀ c ∈ (twapExecute ⟨1/10, 2, none, .buy⟩
            (fun _ => ⟨some 100, some (1/20)⟩)).2.placedLog,
          c.qty = min (chunkSize ⟨1/10, 2, none, .buy⟩)
            ((⟨1/10, 2, none, .buy⟩ : TwapParams).totalQuantity - c.filledBefore)) ∧
        ((twapExecute ⟨1/10, 2, none, .buy⟩
            (fun _ => ⟨some 100, some (1/20)⟩)).2.placedLog.map PlacedChunk.qty).sum ≤
          (⟨1/10, 2, none, .buy⟩ : TwapParams).totalQuantity ∧
        (twapExecute ⟨1/10, 2, none, .buy⟩
            (fun _ => ⟨some 100, some (1/20)⟩)).2.placedLog.length ≤
          (⟨1/10, 2, none, .buy⟩ : TwapParams).chunks) :=
  ⟨by norm_num, by norm_num,
    twap_chunk_invariants ⟨1/10, 2, none, .buy⟩ (fun _ => ⟨some 100, some (1/20)⟩)
      (by norm_num) (by norm_num)⟩

/-- A `_place_order` call logs entries only for its own level index. -/
theorem gridPlaceOrder_idx (env : ℕ → Option ℕ) (k idx : ℕ) (lv : GridLevel) (sd : String) :
    ∀ e ∈ (gridPlaceOrder env k idx lv sd).2, e.1 = idx := by
  unfold gridPlaceOrder
  cases env k <;> simp

/-- A `_place_order` call makes at most one successful placement. -/
theorem gridPlaceOrder_len (env : ℕ → Option ℕ) (k idx : ℕ) (lv : GridLevel) (sd : String) :
    (gridPlaceOrder env k idx lv sd).2.length ≤ 1 := by
  unfold gridPlaceOrder
  cases env k <;> simp

/-- All placements of one `_place_initial_orders` iteration target the
level the iteration is visiting. -/
theorem gridPlaceLevel_idx (gside : GridSide) (priceAt : ℕ → ℚ) (env : ℕ → Option ℕ)
    (k idx : ℕ) (lv : GridLevel) :
    ∀ e ∈ (gridPlaceLevel gside priceAt env k idx lv).2.1, e.1 = idx := by
  intro e he
  unfold gridPlaceLevel at he
  cases gside <;> simp only [sideIncludesLong, sideIncludesShort] at he <;>
    split_ifs at he <;>
    simp only [List.mem_append, List.append_nil, List.nil_append] at he <;>
    first
      | exact gridPlaceOrder_idx env _ idx _ _ e he
      | rcases he with he | he
        · exact gridPlaceOrder_idx env _ idx _ _ e he
        · exact gridPlaceOrder_idx env _ idx _ _ e he
      | cases he

/-- When the side mode is LONG or SHORT, one `_place_initial_orders`
iteration makes at most one placement. -/
theorem gridPlaceLevel_len (gside : GridSide) (hg : gside ≠ GridSide.both)
    (priceAt : ℕ → ℚ) (env : ℕ → Option ℕ) (k idx : ℕ) (lv : GridLevel) :
    (gridPlaceLevel gside priceAt env k idx lv).2.1.length ≤ 1 := by
  unfold gridPlaceLevel
  cases gside with
  | both => exact absurd rfl hg
  | long =>
      simp only [sideIncludesLong, sideIncludesShort]
      split_ifs <;> simp_all [gridPlaceOrder_len]
  | short =>
      simp only [sideIncludesLong, sideIncludesShort]
      split_ifs <;> simp_all [gridPlaceOrder_len]

/-- Placements recorded while visiting the remaining levels carry level
indices at least the current one. -/
theorem gridPlaceInitialOrders_idx_ge (gside : GridSide) (priceAt : ℕ → ℚ)
    (env : ℕ → Option ℕ) :
    ∀ (levels : List GridLevel) (k idx : ℕ),
      ∀ e ∈ (gridPlaceInitialOrders gside priceAt env k idx levels).2, idx ≤ e.1 := by
  intro levels
  induction levels with
  | nil => intro k idx e he; simp [gridPlaceInitialOrders] at he
  | cons lv rest ih =>
      intro k idx e he
      simp only [gridPlaceInitialOrders, List.mem_append] at he
      rcases he with he | he
      · exact le_of_eq (gridPlaceLevel_idx gside priceAt env k idx lv e he).symm
      · exact le_trans (by omega) (ih _ (idx + 1) e he)

/-- Generalized C10 bound: for side mode LONG or SHORT, any fixed level
receives at most one placement during `_place_initial_orders`. -/
theorem gridPlaceInitialOrders_filter_len (gside : GridSide) (hg : gside ≠ GridSide.both)
    (priceAt : ℕ → ℚ) (env : ℕ → Option ℕ) :
    ∀ (levels : List GridLevel) (k idx i : ℕ),
      ((gridPlaceInitialOrders gside priceAt env k idx levels).2.filter
        (fun e => e.1 == i)).length ≤ 1 := by
  intro levels
  induction levels with
  | nil => intro k idx i; simp [gridPlaceInitialOrders]
  | cons lv rest ih =>
      intro k idx i
      simp only [gridPlaceInitialOrders, List.filter_append, List.length_append]
      by_cases hi : i = idx
      · subst hi
        have hrest : ((gridPlaceInitialOrders gside priceAt env
            (gridPlaceLevel gside priceAt env k i lv).2.2 (i + 1) rest).2.filter
              (fun e => e.1 == i)) = [] := by
          apply List.filter_eq_nil_iff.mpr
          intro e he
          have := gridPlaceInitialOrders_idx_ge gside priceAt env rest _ (i + 1) e he
          simp only [beq_iff_eq]
          omega
        rw [hrest]
        simp only [List.length_nil, Nat.add_zero]
        exact le_trans (List.length_filter_le _ _) (gridPlaceLevel_len gside hg priceAt env k i lv)
      · have hlv : ((gridPlaceLevel gside priceAt env k idx lv).2.1.filter
            (fun e => e.1 == i)) = [] := by
          apply List.filter_eq_nil_iff.mpr
          intro e he
          have := gridPlaceLevel_idx gside priceAt env k idx lv e he
          simp only [beq_iff_eq]
          omega
        rw [hlv]
        simp only [List.length_nil, Nat.zero_add]
        exact ih _ (idx + 1) i

/-- C10 as amended: immediately after `GridOrder.start()`, when the side
mode is LONG or SHORT every grid level holds at most one active exchange
order (at most one successful placement targeted it); under BOTH this
bound fails — see the counterexample — because an above-market level
receives both a BUY and a SELL. -/
theorem grid_level_at_most_one_order (gside : GridSide) (hg : gside ≠ GridSide.both)
    (priceAt : ℕ → ℚ) (env : ℕ → Option ℕ) (levels : List GridLevel) (i : ℕ) :
    ((gridStart gside priceAt env levels).2.filter (fun e => e.1 == i)).length ≤ 1 :=
  gridPlaceInitialOrders_filter_len gside hg priceAt env levels 0 0 i

/-- Witness for C10 (amended): a LONG grid over 48000-52000 with two
levels, market at 50000, all placements accepted. -/
theorem grid_level_at_most_one_order_witness :
    GridSide.long ≠ GridSide.both ∧
      ((gridStart .long (fun _ => 50000) (fun k => some (k + 1))
          (calcGridLevels 48000 52000 2 1)).2.filter (fun e => e.1 == 1)).length ≤ 1 :=
  ⟨by decide,
    grid_level_at_most_one_order .long (by decide) (fun _ => 50000) (fun k => some (k + 1))
      (calcGridLevels 48000 52000 2 1) 1⟩

/-- Counterexample to C10 as stated: a BOTH-sided grid over 48000-52000
with two levels and market price 50000 places, at the level priced
52000 (index 1), first a BUY and then a SELL — two active exchange
orders at one level — while the level records only the SELL side. -/
theorem grid_start_both_counterexample :
    ((gridStart .both (fun _ => 50000) (fun k => some (k + 1))
        (calcGridLevels 48000 52000 2 1)).2.filter (fun e => e.1 == 1)).map
      (fun e => e.2.1) = ["BUY", "SELL"] ∧
      ¬ ((gridStart .both (fun _ => 50000) (fun k => some (k + 1))
          (calcGridLevels 48000 52000 2 1)).2.filter (fun e => e.1 == 1)).length ≤ 1 ∧
      ((gridStart .both (fun _ => 50000) (fun k => some (k + 1))
          (calcGridLevels 48000 52000 2 1)).1.map GridLevel.side) =
        [some "BUY", some "SELL"] := by
  refine ⟨?_, ?_, ?_⟩ <;>
    norm_num [gridStart, gridPlaceInitialOrders, calcGridLevels, List.range_succ,
      gridPlaceLevel, gridPlaceOrder, sideIncludesLong, sideIncludesShort,
      pyRound2, pyRound6, roundHalfEven, round_eq]

end TradingBot
